import Mathlib

/-!
Shallow embedding of `src/App.jsx` from the Carbon_langflow repository.

The app wires a chat UI to a LangFlow workflow endpoint and an Astra DB
document store.  We embed the pure request/response adapters
(`extractLangflowMessage`, `buildTextResponse` payload shapes,
`readFileAsBase64` splitting), the effectful handlers as functions from
their inputs plus an explicit network-response oracle to an effect trace
(requests issued, messages added), and the uploaded-files list as a step
relation.  JavaScript nullish values (`null`/`undefined`) are modelled by
`Option`, JSON values by the inductive `JVal`, and environment-supplied
strings (timestamps, fresh ids) are passed as explicit parameters.
-/

/-- JSON values as produced by `response.json()`.  JavaScript `null` is
`jnull`; `undefined` never appears inside parsed JSON and is modelled as
`Option.none` at access sites. -/
inductive JVal where
  | jnull : JVal
  | jbool : Bool → JVal
  | jnum : Int → JVal
  | jstr : String → JVal
  | jarr : List JVal → JVal
  | jobj : List (String × JVal) → JVal

/-- JavaScript truthiness of a JSON value (`!data` is the negation). -/
def JVal.truthy : JVal → Bool
  | .jnull => false
  | .jbool b => b
  | .jnum n => n != 0
  | .jstr s => s != ""
  | .jarr _ => true
  | .jobj _ => true

/-- Collapse a JSON `null` to `none`: both `null` and `undefined` are
nullish for `?.` chains and `??`, which is all the source distinguishes. -/
def denull : Option JVal → Option JVal
  | some .jnull => none
  | o => o

/-- `v?.k` — property access with optional chaining.  On non-objects the
property is absent (`undefined`); a stored JSON `null` is also nullish. -/
def JVal.getField : JVal → String → Option JVal
  | .jobj fs, k => denull ((fs.find? (fun p => p.1 == k)).map (·.2))
  | _, _ => none

/-- `v?.[i]` — index access with optional chaining.  Arrays index their
elements, objects look up the stringified key, strings index their
characters; everything else yields `undefined`. -/
def JVal.getIndex : JVal → Nat → Option JVal
  | .jarr xs, i => denull xs[i]?
  | .jobj fs, i => denull ((fs.find? (fun p => p.1 == toString i)).map (·.2))
  | .jstr s, i => (s.toList[i]?).map (fun c => .jstr (String.mk [c]))
  | _, _ => none

/-- Continue an optional chain through a property. -/
def atKey (v : Option JVal) (k : String) : Option JVal :=
  v.bind (fun w => w.getField k)

/-- Continue an optional chain through an index. -/
def atIdx (v : Option JVal) (i : Nat) : Option JVal :=
  v.bind (fun w => w.getIndex i)

/-- JavaScript `String.prototype.trim()`: strip leading and trailing
whitespace.  (Defined over the character list so that it reduces in the
kernel; `String.trim` itself is defined through `Substring` auxiliaries
that do not.) -/
def jsTrim (s : String) : String :=
  String.mk (((s.toList.dropWhile Char.isWhitespace).reverse.dropWhile
    Char.isWhitespace).reverse)

/-- First candidate path of `extractLangflowMessage`:
`data?.outputs?.[0]?.outputs?.[0]?.outputs?.message?.message`. -/
def lfPath1 (data : JVal) : Option JVal :=
  atKey (atKey (atKey (atIdx (atKey (atIdx (data.getField "outputs") 0) "outputs") 0)
    "outputs") "message") "message"

/-- Second candidate path:
`data?.outputs?.[0]?.outputs?.[0]?.artifacts?.message`. -/
def lfPath2 (data : JVal) : Option JVal :=
  atKey (atKey (atIdx (atKey (atIdx (data.getField "outputs") 0) "outputs") 0)
    "artifacts") "message"

/-- Third candidate path:
`data?.outputs?.[0]?.outputs?.[0]?.messages?.[0]?.message`. -/
def lfPath3 (data : JVal) : Option JVal :=
  atKey (atIdx (atKey (atIdx (atKey (atIdx (data.getField "outputs") 0) "outputs") 0)
    "messages") 0) "message"

/-- Fourth candidate path:
`data?.outputs?.[0]?.outputs?.[0]?.results?.message?.text`. -/
def lfPath4 (data : JVal) : Option JVal :=
  atKey (atKey (atKey (atIdx (atKey (atIdx (data.getField "outputs") 0) "outputs") 0)
    "results") "message") "text"

/-- The `??` chain of the four candidate paths, in source order: the first
non-nullish value wins. -/
def lfChain (data : JVal) : Option JVal :=
  (lfPath1 data).orElse (fun _ =>
    (lfPath2 data).orElse (fun _ =>
      (lfPath3 data).orElse (fun _ => lfPath4 data)))

/-- Inner callback of the second-pass `flatMap` (`subEntry` level).  A
non-array in a `.flatMap`/`.map` position raises a `TypeError`, modelled by
`Except.error`. -/
def lfSubEntryStrings (subEntry : JVal) : Except String (List String) :=
  let maybeString :=
    (atKey (atKey (subEntry.getField "outputs") "message") "message").orElse
      (fun _ => atKey (subEntry.getField "artifacts") "message")
  match maybeString with
  | some (.jstr s) => .ok [s]
  | _ =>
    match (subEntry.getField "messages").getD (.jarr []) with
    | .jarr ms =>
        .ok (ms.filterMap (fun m =>
          match m.getField "message" with
          | some (.jstr s) => some s
          | _ => none))
    | _ => .error "TypeError: messages.map is not a function"

/-- Outer callback of the second-pass `flatMap` (`entry` level). -/
def lfEntryStrings (entry : JVal) : Except String (List String) :=
  match (entry.getField "outputs").getD (.jarr []) with
  | .jarr subs => (subs.mapM lfSubEntryStrings).map List.flatten
  | _ => .error "TypeError: inner.flatMap is not a function"

/-- Second pass of `extractLangflowMessage`: flat-map every entry of
`data?.outputs`, collect the strings, return the first one if any. -/
def lfSecondPass (data : JVal) : Except String (Option String) :=
  match data.getField "outputs" with
  | none => .ok none
  | some (.jarr entries) =>
      match (entries.mapM lfEntryStrings).map List.flatten with
      | .ok text => .ok (if text.length > 0 then some (text.getD 0 "") else none)
      | .error e => .error e
  | some _ => .error "TypeError: outputs.flatMap is not a function"

/-- `extractLangflowMessage(data)`: try the four nested paths in order; a
nonempty string (after trim) is returned trimmed; otherwise fall back to
the flat-map pass, whose first collected string is returned untrimmed.
`Except.error` models a thrown `TypeError` (`.flatMap` on a non-array). -/
def extractLangflowMessage (data : JVal) : Except String (Option String) :=
  if !data.truthy then .ok none
  else
    match lfChain data with
    | some (.jstr s) =>
        if (jsTrim s).length > 0 then .ok (some (jsTrim s)) else lfSecondPass data
    | _ => lfSecondPass data

/-- The LangFlow configuration constants (`LANGFLOW_URL`, `LANGFLOW_ORG_ID`,
`LANGFLOW_TOKEN`).  Each defaults to `''` when the environment variable is
absent, so "missing" is exactly "empty string". -/
structure LfConfig where
  url : String
  orgId : String
  token : String

/-- The JSON payload POSTed to the LangFlow endpoint by
`customSendMessage`. -/
structure LfPayload where
  output_type : String
  input_type : String
  input_value : String
  session_id : String
deriving DecidableEq

/-- Outcome of one `fetch` call, as seen by the caller: `okJson` is a
2xx response whose body parsed as JSON; `httpError` is a non-ok response
(status, statusText, body text); `jsonError` is an ok response whose body
failed to parse; `netError` is a rejected fetch. -/
inductive FetchResult where
  | okJson : JVal → FetchResult
  | httpError : Nat → String → String → FetchResult
  | jsonError : String → FetchResult
  | netError : String → FetchResult

/-- Effect trace of one `customSendMessage` call: the LangFlow requests it
issued, the texts of the messages it added via
`instance.messaging.addMessage` (each wrapped by `buildTextResponse`), and
whether it re-threw an error at the end. -/
structure SendOutcome where
  requests : List LfPayload
  messages : List String
  threw : Bool
deriving DecidableEq

/-- Fallback added when the LangFlow configuration is missing. -/
def lfConfigFallback : String :=
  "LangFlow configuration is missing. Please check the environment variables."

/-- Fallback added when the reply parsed but no assistant text was found. -/
def lfNoReplyFallback : String :=
  "I was unable to retrieve a response from the LangFlow assistant."

/-- Fallback added from the `catch` block (HTTP error, network error,
JSON parse error, or an extraction `TypeError`). -/
def lfErrorFallback : String :=
  "Sorry, I ran into a problem reaching the LangFlow assistant. Please try again in a moment."

/-- `customSendMessage(request, requestOptions, instance)`.
`inputText` is `request?.input?.text` (`none` when absent), `sessionId` is
`sessionRef.current`, and `net` is the oracle for the single `fetch` to
`LANGFLOW_URL`. -/
def customSendMessage (cfg : LfConfig) (sessionId : String)
    (inputText : Option String) (net : FetchResult) : SendOutcome :=
  match inputText.map jsTrim with
  | none => ⟨[], [], false⟩
  | some userText =>
    if userText = "" then ⟨[], [], false⟩
    else if cfg.url = "" ∨ cfg.orgId = "" ∨ cfg.token = "" then
      ⟨[], [lfConfigFallback], false⟩
    else
      let payload : LfPayload := ⟨"chat", "chat", userText, sessionId⟩
      match net with
      | .okJson data =>
          match extractLangflowMessage data with
          | .ok msgOpt => ⟨[payload], [msgOpt.getD lfNoReplyFallback], false⟩
          | .error _ => ⟨[payload], [lfErrorFallback], true⟩
      | .httpError _ _ _ => ⟨[payload], [lfErrorFallback], true⟩
      | .jsonError _ => ⟨[payload], [lfErrorFallback], true⟩
      | .netError _ => ⟨[payload], [lfErrorFallback], true⟩

/-- The Astra DB configuration constants.  `endpoint`, `keyspace` and
`token` default to `''`; `collection` defaults through `|| 'raw_esg'`. -/
structure AstraConfig where
  endpoint : String
  keyspace : String
  collection : String
  token : String

/-- `ASTRA_DB_COLLECTION = import.meta.env.VITE_ASTRA_DB_COLLECTION || 'raw_esg'`. -/
def astraCollectionConst (envVal : String) : String :=
  if envVal = "" then "raw_esg" else envVal

/-- The URL both Astra calls target:
`${endpoint}/api/json/v1/${keyspace}/${collection}`. -/
def astraUrl (cfg : AstraConfig) : String :=
  cfg.endpoint ++ "/api/json/v1/" ++ cfg.keyspace ++ "/" ++ cfg.collection

/-- The document inserted by `ingestFileToAstra`. -/
structure AstraDoc where
  filename : String
  mimeType : String
  size : Option Int
  uploadedAt : String
  vectorize : String
  contentBase64 : String
deriving DecidableEq

/-- Body of an Astra Data API request: `insertMany` (ingestion) or
`findOne` (connectivity check). -/
inductive AstraBody where
  | insertMany : List AstraDoc → AstraBody
  | findOne : AstraBody
deriving DecidableEq

/-- One HTTP POST to the Astra Data API. -/
structure AstraRequest where
  url : String
  token : String
  body : AstraBody
deriving DecidableEq

/-- A selected `File` object, with the data-URL string the `FileReader`
produces for it (`none` models a reader error or non-string result, which
rejects the `readFileAsBase64` promise). -/
structure FileData where
  name : String
  mimeType : String
  size : Option Int
  readerResult : Option String

/-- JavaScript `String.prototype.split(',')` over the character list
(`String.splitOn` itself does not reduce in the kernel): splitting the
empty string gives `[""]`, and consecutive commas give empty fields. -/
def jsSplitComma : List Char → List (List Char)
  | [] => [[]]
  | c :: rest =>
    match jsSplitComma rest with
    | [] => if c = ',' then [[], []] else [[c]]
    | g :: gs => if c = ',' then [] :: g :: gs else (c :: g) :: gs

/-- The destructuring `const [, base64 = result] = result.split(',')`:
take the field after the first comma, or the whole string if there is no
comma. -/
def readFileAsBase64 (dataUrl : String) : String :=
  match (jsSplitComma dataUrl.toList).map String.mk with
  | _ :: b :: _ => b
  | _ => dataUrl

/-- Result value of `ingestFileToAstra`: `{success:false, skipped:true}`,
`{success:true, data}`, or `{success:false, error}` (carrying
`error.message`). -/
inductive IngestResult where
  | skippedRes : String → IngestResult
  | successRes : JVal → IngestResult
  | failureRes : String → IngestResult

/-- Effect trace of one `ingestFileToAstra` call. -/
structure IngestOutcome where
  requests : List AstraRequest
  result : IngestResult

/-- The warning message of the skipped-ingestion branch. -/
def astraConfigMissingMsg : String :=
  "Astra DB configuration missing. Skipping ingestion."

/-- `ingestFileToAstra(file)`.  `now` is `new Date().toISOString()` and
`net` is the oracle for the single `fetch` of the insert. -/
def ingestFileToAstra (cfg : AstraConfig) (file : FileData) (now : String)
    (net : FetchResult) : IngestOutcome :=
  if cfg.endpoint = "" ∨ cfg.keyspace = "" ∨ cfg.collection = "" ∨ cfg.token = "" then
    ⟨[], .skippedRes astraConfigMissingMsg⟩
  else
    match file.readerResult with
    | none => ⟨[], .failureRes "Failed to read file as base64."⟩
    | some dataUrl =>
      let doc : AstraDoc :=
        { filename := file.name
          mimeType := if file.mimeType = "" then "application/octet-stream" else file.mimeType
          size := file.size
          uploadedAt := now
          vectorize := file.name
          contentBase64 := readFileAsBase64 dataUrl }
      let req : AstraRequest := ⟨astraUrl cfg, cfg.token, .insertMany [doc]⟩
      match net with
      | .okJson data => ⟨[req], .successRes data⟩
      | .httpError status statusText body =>
          ⟨[req], .failureRes
            ("Astra insertMany request failed: " ++ toString status ++ " "
              ++ statusText ++ " " ++ body)⟩
      | .jsonError msg => ⟨[req], .failureRes msg⟩
      | .netError msg => ⟨[req], .failureRes msg⟩

/-- The `astraConnectionStatus` record. -/
structure ConnStatus where
  checked : Bool
  success : Bool
  message : String
deriving DecidableEq

/-- Status message of the missing-configuration branch of
`testAstraConnection`. -/
def astraMissingConnMsg : String :=
  "Missing Astra DB configuration. Please check your environment variables."

/-- Status message of the success branch of `testAstraConnection`. -/
def astraConnSuccessMsg : String :=
  "Successfully connected to Astra DB collection."

/-- Effect trace of one `testAstraConnection` call. -/
structure TestOutcome where
  requests : List AstraRequest
  status : ConnStatus

/-- `testAstraConnection()`.  The response body is never JSON-parsed, so an
ok response succeeds regardless of its body. -/
def testAstraConnection (cfg : AstraConfig) (net : FetchResult) : TestOutcome :=
  if cfg.endpoint = "" ∨ cfg.keyspace = "" ∨ cfg.collection = "" ∨ cfg.token = "" then
    ⟨[], ⟨true, false, astraMissingConnMsg⟩⟩
  else
    let req : AstraRequest := ⟨astraUrl cfg, cfg.token, .findOne⟩
    match net with
    | .okJson _ => ⟨[req], ⟨true, true, astraConnSuccessMsg⟩⟩
    | .jsonError _ => ⟨[req], ⟨true, true, astraConnSuccessMsg⟩⟩
    | .httpError status statusText body =>
        ⟨[req], ⟨true, false, toString status ++ " " ++ statusText ++ " " ++ body⟩⟩
    | .netError msg => ⟨[req], ⟨true, false, msg⟩⟩

/-- One entry of the `uploadedFiles` list.  `status` is kept as a raw
string exactly as in the source (`'uploading'`, `'complete'`, `'error'`
are string literals there, not an enum).  Fields the source only adds on
completion or failure are `Option`s defaulting to `none`. -/
structure FileEntry where
  id : String
  name : String
  size : Option Int
  createdAt : String
  status : String
  completedAt : Option String := none
  astraResponse : Option JVal := none
  errorMessage : Option String := none

/-- A file pulled from the input event, paired with the id `makeId()`
returned for it.  `makeId` draws on `crypto.randomUUID` (or a
time-and-randomness string), so the id is an oracle-supplied string. -/
structure NewFile where
  id : String
  name : String
  size : Option Int

/-- The entry `handleFilesSelected` builds for one selected file
(`status: 'uploading'`; `createdAt: new Date()` is the `now` parameter). -/
def mkEntry (now : String) (nf : NewFile) : FileEntry :=
  { id := nf.id, name := nf.name, size := nf.size, createdAt := now,
    status := "uploading" }

/-- The synchronous part of `handleFilesSelected`:
`setUploadedFiles((prev) => [...prev, ...nextFiles])`. -/
def addFiles (prev : List FileEntry) (now : String) (nfs : List NewFile) :
    List FileEntry :=
  prev ++ nfs.map (mkEntry now)

/-- The deferred state update run after `ingestFileToAstra` settles for the
entry with id `entryId`: success or skipped marks the entry complete
(`astraResponse: ingestionResult.data ?? null`), failure marks it error. -/
def finishEntry (prev : List FileEntry) (entryId : String)
    (res : IngestResult) (now : String) : List FileEntry :=
  prev.map (fun item =>
    if item.id ≠ entryId then item
    else
      match res with
      | .successRes data =>
          { item with
            status := "complete"
            completedAt := some now
            astraResponse := denull (some data) }
      | .skippedRes _ =>
          { item with
            status := "complete"
            completedAt := some now
            astraResponse := none }
      | .failureRes msg =>
          { item with status := "error", errorMessage := some msg })

/-- `handleRemoveFile(fileId)`:
`setUploadedFiles((prev) => prev.filter((file) => file.id !== fileId))`. -/
def handleRemoveFile (prev : List FileEntry) (fileId : String) :
    List FileEntry :=
  prev.filter (fun f => f.id ≠ fileId)

/-- The three operations that update the `uploadedFiles` state. -/
inductive FilesOp where
  | add : String → List NewFile → FilesOp
  | finish : String → IngestResult → String → FilesOp
  | remove : String → FilesOp

/-- Apply one operation to the list. -/
def applyOp (s : List FileEntry) : FilesOp → List FileEntry
  | .add now nfs => addFiles s now nfs
  | .finish entryId res now => finishEntry s entryId res now
  | .remove fileId => handleRemoveFile s fileId

/-- States of `uploadedFiles` reachable from the initial `[]` through the
three updaters. -/
inductive ReachableFiles : List FileEntry → Prop where
  | init : ReachableFiles []
  | step (s : List FileEntry) (op : FilesOp) :
      ReachableFiles s → ReachableFiles (applyOp s op)

/-- Reachability refined with the freshness of `makeId`: every batch of
generated ids is duplicate-free and disjoint from the ids already in the
list (what `crypto.randomUUID` provides within one page session). -/
inductive ReachableFreshFiles : List FileEntry → Prop where
  | init : ReachableFreshFiles []
  | add (s : List FileEntry) (now : String) (nfs : List NewFile) :
      ReachableFreshFiles s →
      (nfs.map NewFile.id).Nodup →
      (∀ nf ∈ nfs, nf.id ∉ s.map FileEntry.id) →
      ReachableFreshFiles (addFiles s now nfs)
  | finish (s : List FileEntry) (entryId : String) (res : IngestResult)
      (now : String) :
      ReachableFreshFiles s → ReachableFreshFiles (finishEntry s entryId res now)
  | remove (s : List FileEntry) (fileId : String) :
      ReachableFreshFiles s → ReachableFreshFiles (handleRemoveFile s fileId)

/-- `sessionRef.current` is touched by exactly two pieces of code: the
RESET bus handler `regenerateSessionId` (which stores a fresh
`createSessionId()` value, oracle-supplied here) and the read in
`customSendMessage`.  We model the events that reach the session cell. -/
inductive ChatEvent where
  | reset : String → ChatEvent
  | send : Option String → FetchResult → ChatEvent

/-- How one event transforms `sessionRef.current`: the RESET handler
replaces it, a send leaves it unchanged. -/
def stepSession (sessionId : String) : ChatEvent → String
  | .reset freshId => freshId
  | .send _ _ => sessionId

/-- Whether an event is the user-initiated RESET bus event. -/
def ChatEvent.isReset : ChatEvent → Bool
  | .reset _ => true
  | .send _ _ => false

/-! ## Helper lemmas -/

lemma string_length_pos_of_ne_empty (s : String) (h : s ≠ "") : 0 < s.length := by
  cases s with
  | mk cs =>
    cases cs with
    | nil => exact absurd rfl h
    | cons c cs => simp [String.length]

/-- Unfolding of `customSendMessage` on a present input text. -/
lemma customSendMessage_some (cfg : LfConfig) (sid t : String) (net : FetchResult) :
    customSendMessage cfg sid (some t) net =
      if jsTrim t = "" then ⟨[], [], false⟩
      else if cfg.url = "" ∨ cfg.orgId = "" ∨ cfg.token = "" then
        ⟨[], [lfConfigFallback], false⟩
      else
        let payload : LfPayload := ⟨"chat", "chat", jsTrim t, sid⟩
        match net with
        | .okJson data =>
            match extractLangflowMessage data with
            | .ok msgOpt => ⟨[payload], [msgOpt.getD lfNoReplyFallback], false⟩
            | .error _ => ⟨[payload], [lfErrorFallback], true⟩
        | .httpError _ _ _ => ⟨[payload], [lfErrorFallback], true⟩
        | .jsonError _ => ⟨[payload], [lfErrorFallback], true⟩
        | .netError _ => ⟨[payload], [lfErrorFallback], true⟩ := rfl

lemma getField_some_truthy (v : JVal) (k : String) (h : v.getField k ≠ none) :
    v.truthy = true := by
  cases v with
  | jobj fs => rfl
  | jnull => exact absurd rfl h
  | jbool b => exact absurd rfl h
  | jnum n => exact absurd rfl h
  | jstr s => exact absurd rfl h
  | jarr xs => exact absurd rfl h

lemma lfPath1_of_base_none (data : JVal) (h : data.getField "outputs" = none) :
    lfPath1 data = none := by
  simp [lfPath1, atKey, atIdx, h]

/-! ## C10 -/

/-- C10: a send-message request whose input text is absent, empty, or
whitespace-only returns at once: no HTTP request, no message added (not
even a fallback), no error re-thrown. -/
theorem empty_input_no_request_no_message :
    ∀ (cfg : LfConfig) (sid : String) (net : FetchResult),
      customSendMessage cfg sid none net = ⟨[], [], false⟩ ∧
      (∀ t : String, jsTrim t = "" →
        customSendMessage cfg sid (some t) net = ⟨[], [], false⟩) := by
  intro cfg sid net
  refine ⟨rfl, ?_⟩
  intro t ht
  rw [customSendMessage_some, if_pos ht]

/-- Witness for C10 at a whitespace-only input. -/
theorem empty_input_no_request_no_message_witness :
    customSendMessage ⟨"u", "o", "k"⟩ "sess" (some "   ") (.netError "boom") =
      ⟨[], [], false⟩ :=
  (empty_input_no_request_no_message ⟨"u", "o", "k"⟩ "sess" (.netError "boom")).2
    "   " (by decide)

/-! ## C1 -/

/-- C1 as stated is false: a send-message request whose input text is the
empty string returns before the configuration check, so even with
`LANGFLOW_URL = ''` no fallback message is added to the chat. -/
theorem missing_config_empty_input_adds_no_fallback :
    (LfConfig.mk "" "org" "tok").url = "" ∧
    (customSendMessage ⟨"", "org", "tok"⟩ "sess" (some "") (.okJson .jnull)).messages = [] ∧
    (customSendMessage ⟨"", "org", "tok"⟩ "sess" (some "") (.okJson .jnull)).messages
      ≠ [lfConfigFallback] :=
  ⟨rfl, rfl, by decide⟩

/-- C1 (amended): for every send-message request with non-empty trimmed
input text, a missing LangFlow configuration value yields exactly the
designated fallback message and no HTTP request; and more generally a
missing configuration value always yields the designated fallback string:
`ingestFileToAstra` returns the skipped result with its designated message
and issues no request, and `testAstraConnection` sets its designated
missing-configuration status and issues no request. -/
theorem missing_config_yields_designated_fallback :
    (∀ (cfg : LfConfig) (sid t : String) (net : FetchResult),
      jsTrim t ≠ "" → (cfg.url = "" ∨ cfg.orgId = "" ∨ cfg.token = "") →
      customSendMessage cfg sid (some t) net = ⟨[], [lfConfigFallback], false⟩) ∧
    (∀ (acfg : AstraConfig) (f : FileData) (now : String) (net : FetchResult),
      (acfg.endpoint = "" ∨ acfg.keyspace = "" ∨ acfg.collection = "" ∨ acfg.token = "") →
      ingestFileToAstra acfg f now net =
        ⟨[], .skippedRes astraConfigMissingMsg⟩) ∧
    (∀ (acfg : AstraConfig) (net : FetchResult),
      (acfg.endpoint = "" ∨ acfg.keyspace = "" ∨ acfg.collection = "" ∨ acfg.token = "") →
      testAstraConnection acfg net = ⟨[], ⟨true, false, astraMissingConnMsg⟩⟩) := by
  refine ⟨?_, ?_, ?_⟩
  · intro cfg sid t net ht hmiss
    rw [customSendMessage_some, if_neg ht, if_pos hmiss]
  · intro acfg f now net hmiss
    unfold ingestFileToAstra
    rw [if_pos hmiss]
  · intro acfg net hmiss
    unfold testAstraConnection
    rw [if_pos hmiss]

/-- Witness for the amended C1 at concrete missing configurations. -/
theorem missing_config_yields_designated_fallback_witness :
    customSendMessage ⟨"", "org", "tok"⟩ "sess" (some "hi") (.netError "boom") =
      ⟨[], [lfConfigFallback], false⟩ ∧
    ingestFileToAstra ⟨"", "ks", "coll", "tok"⟩ ⟨"f.pdf", "application/pdf", some 3, some "x,QQ"⟩
        "2024-01-01" (.okJson .jnull) = ⟨[], .skippedRes astraConfigMissingMsg⟩ ∧
    testAstraConnection ⟨"ep", "", "coll", "tok"⟩ (.okJson .jnull) =
      ⟨[], ⟨true, false, astraMissingConnMsg⟩⟩ :=
  ⟨missing_config_yields_designated_fallback.1 ⟨"", "org", "tok"⟩ "sess" "hi"
      (.netError "boom") (by decide) (Or.inl rfl),
    missing_config_yields_designated_fallback.2.1 ⟨"", "ks", "coll", "tok"⟩
      ⟨"f.pdf", "application/pdf", some 3, some "x,QQ"⟩ "2024-01-01" (.okJson .jnull)
      (Or.inl rfl),
    missing_config_yields_designated_fallback.2.2 ⟨"ep", "", "coll", "tok"⟩
      (.okJson .jnull) (Or.inr (Or.inl rfl))⟩

/-! ## C3 -/

/-- C3 as stated is false for the missing-configuration failure class: a
send-message request whose input text is whitespace-only returns before
the configuration check, so no fallback message is added at all. -/
theorem failure_fallback_requires_nonempty_input :
    (LfConfig.mk "" "org" "tok").url = "" ∧
    (customSendMessage ⟨"", "org", "tok"⟩ "sess" (some "   ") (.okJson .jnull)).messages = [] ∧
    (customSendMessage ⟨"", "org", "tok"⟩ "sess" (some "   ") (.okJson .jnull)).messages
      ≠ [lfConfigFallback] :=
  ⟨rfl, by decide, by decide⟩

/-- C3 (amended): for every send-message request with non-empty trimmed
input text, each failure class adds exactly one fixed fallback message and
issues at most one HTTP request (none for missing configuration, exactly
one otherwise) — no retry and no second request. -/
theorem failure_classes_yield_fixed_fallback_no_retry :
    (∀ (cfg : LfConfig) (sid t : String) (net : FetchResult),
      jsTrim t ≠ "" → (cfg.url = "" ∨ cfg.orgId = "" ∨ cfg.token = "") →
      customSendMessage cfg sid (some t) net = ⟨[], [lfConfigFallback], false⟩) ∧
    (∀ (cfg : LfConfig) (sid t : String) (status : Nat) (stx body : String),
      jsTrim t ≠ "" → cfg.url ≠ "" → cfg.orgId ≠ "" → cfg.token ≠ "" →
      customSendMessage cfg sid (some t) (.httpError status stx body) =
        ⟨[⟨"chat", "chat", jsTrim t, sid⟩], [lfErrorFallback], true⟩) ∧
    (∀ (cfg : LfConfig) (sid t : String) (data : JVal),
      jsTrim t ≠ "" → cfg.url ≠ "" → cfg.orgId ≠ "" → cfg.token ≠ "" →
      extractLangflowMessage data = .ok none →
      customSendMessage cfg sid (some t) (.okJson data) =
        ⟨[⟨"chat", "chat", jsTrim t, sid⟩], [lfNoReplyFallback], false⟩) ∧
    (∀ (cfg : LfConfig) (sid t : String) (data : JVal) (e : String),
      jsTrim t ≠ "" → cfg.url ≠ "" → cfg.orgId ≠ "" → cfg.token ≠ "" →
      extractLangflowMessage data = .error e →
      customSendMessage cfg sid (some t) (.okJson data) =
        ⟨[⟨"chat", "chat", jsTrim t, sid⟩], [lfErrorFallback], true⟩) ∧
    (∀ (cfg : LfConfig) (sid t msg : String),
      jsTrim t ≠ "" → cfg.url ≠ "" → cfg.orgId ≠ "" → cfg.token ≠ "" →
      customSendMessage cfg sid (some t) (.netError msg) =
        ⟨[⟨"chat", "chat", jsTrim t, sid⟩], [lfErrorFallback], true⟩ ∧
      customSendMessage cfg sid (some t) (.jsonError msg) =
        ⟨[⟨"chat", "chat", jsTrim t, sid⟩], [lfErrorFallback], true⟩) := by
  have hcfg : ∀ (cfg : LfConfig), cfg.url ≠ "" → cfg.orgId ≠ "" → cfg.token ≠ "" →
      ¬(cfg.url = "" ∨ cfg.orgId = "" ∨ cfg.token = "") := by
    intro cfg h1 h2 h3 h
    rcases h with h | h | h
    · exact h1 h
    · exact h2 h
    · exact h3 h
  refine ⟨?_, ?_, ?_, ?_, ?_⟩
  · intro cfg sid t net ht hmiss
    rw [customSendMessage_some, if_neg ht, if_pos hmiss]
  · intro cfg sid t status stx body ht h1 h2 h3
    rw [customSendMessage_some, if_neg ht, if_neg (hcfg cfg h1 h2 h3)]
  · intro cfg sid t data ht h1 h2 h3 hE
    rw [customSendMessage_some, if_neg ht, if_neg (hcfg cfg h1 h2 h3)]
    simp only [hE]
    rfl
  · intro cfg sid t data e ht h1 h2 h3 hE
    rw [customSendMessage_some, if_neg ht, if_neg (hcfg cfg h1 h2 h3)]
    simp only [hE]
  · intro cfg sid t msg ht h1 h2 h3
    constructor
    · rw [customSendMessage_some, if_neg ht, if_neg (hcfg cfg h1 h2 h3)]
    · rw [customSendMessage_some, if_neg ht, if_neg (hcfg cfg h1 h2 h3)]

/-- Witness for the amended C3: the three failure classes at concrete
inputs. -/
theorem failure_classes_yield_fixed_fallback_no_retry_witness :
    customSendMessage ⟨"", "org", "tok"⟩ "sess" (some "hi") (.netError "boom") =
      ⟨[], [lfConfigFallback], false⟩ ∧
    customSendMessage ⟨"u", "org", "tok"⟩ "sess" (some "hi") (.httpError 500 "ISE" "oops") =
      ⟨[⟨"chat", "chat", "hi", "sess"⟩], [lfErrorFallback], true⟩ ∧
    customSendMessage ⟨"u", "org", "tok"⟩ "sess" (some "hi") (.okJson .jnull) =
      ⟨[⟨"chat", "chat", "hi", "sess"⟩], [lfNoReplyFallback], false⟩ :=
  ⟨failure_classes_yield_fixed_fallback_no_retry.1 ⟨"", "org", "tok"⟩ "sess" "hi"
      (.netError "boom") (by decide) (Or.inl rfl),
    failure_classes_yield_fixed_fallback_no_retry.2.1 ⟨"u", "org", "tok"⟩ "sess" "hi"
      500 "ISE" "oops" (by decide) (by decide) (by decide) (by decide),
    failure_classes_yield_fixed_fallback_no_retry.2.2.1 ⟨"u", "org", "tok"⟩ "sess" "hi"
      .jnull (by decide) (by decide) (by decide) (by decide) rfl⟩

/-! ## C4 -/

lemma lfPath2_of_base_none (data : JVal) (h : data.getField "outputs" = none) :
    lfPath2 data = none := by
  simp [lfPath2, atKey, atIdx, h]

lemma lfPath3_of_base_none (data : JVal) (h : data.getField "outputs" = none) :
    lfPath3 data = none := by
  simp [lfPath3, atKey, atIdx, h]

lemma lfPath4_of_base_none (data : JVal) (h : data.getField "outputs" = none) :
    lfPath4 data = none := by
  simp [lfPath4, atKey, atIdx, h]

/-- The common tail of the C4 extraction argument: once the `??` chain is
known to yield a string with non-empty trim, `extractLangflowMessage`
returns it trimmed. -/
lemma extract_of_chain_string (data : JVal) (s : String)
    (hbase : data.getField "outputs" ≠ none)
    (hchain : lfChain data = some (.jstr s)) (hs : jsTrim s ≠ "") :
    extractLangflowMessage data = .ok (some (jsTrim s)) := by
  have htruthy : data.truthy = true := getField_some_truthy data "outputs" hbase
  have hlen : 0 < (jsTrim s).length := string_length_pos_of_ne_empty _ hs
  rw [extractLangflowMessage, htruthy]
  simp only [Bool.not_true, Bool.false_eq_true, if_false, hchain]
  rw [if_pos hlen]

/-- C4: with non-empty trimmed input and full configuration,
`customSendMessage` issues exactly one POST whose body carries the trimmed
user text and the current session id (whatever the network then does), and
the reply extraction tries the four nested paths in their fixed source
order with the first match winning: whenever the first path holding a
string with non-empty trim is path k, that string (trimmed) is the
extracted assistant text, regardless of the later paths. -/
theorem send_posts_once_and_extracts_first_match :
    (∀ (cfg : LfConfig) (sid t : String) (net : FetchResult),
      jsTrim t ≠ "" → cfg.url ≠ "" → cfg.orgId ≠ "" → cfg.token ≠ "" →
      (customSendMessage cfg sid (some t) net).requests =
        [⟨"chat", "chat", jsTrim t, sid⟩]) ∧
    (∀ (data : JVal) (s : String),
      lfPath1 data = some (.jstr s) → jsTrim s ≠ "" →
      extractLangflowMessage data = .ok (some (jsTrim s))) ∧
    (∀ (data : JVal) (s : String),
      lfPath1 data = none → lfPath2 data = some (.jstr s) → jsTrim s ≠ "" →
      extractLangflowMessage data = .ok (some (jsTrim s))) ∧
    (∀ (data : JVal) (s : String),
      lfPath1 data = none → lfPath2 data = none →
      lfPath3 data = some (.jstr s) → jsTrim s ≠ "" →
      extractLangflowMessage data = .ok (some (jsTrim s))) ∧
    (∀ (data : JVal) (s : String),
      lfPath1 data = none → lfPath2 data = none → lfPath3 data = none →
      lfPath4 data = some (.jstr s) → jsTrim s ≠ "" →
      extractLangflowMessage data = .ok (some (jsTrim s))) := by
  refine ⟨?_, ?_, ?_, ?_, ?_⟩
  · intro cfg sid t net ht h1 h2 h3
    rw [customSendMessage_some, if_neg ht]
    have : ¬(cfg.url = "" ∨ cfg.orgId = "" ∨ cfg.token = "") := by
      intro h
      rcases h with h | h | h
      · exact h1 h
      · exact h2 h
      · exact h3 h
    rw [if_neg this]
    cases net with
    | okJson data =>
        cases hE : extractLangflowMessage data with
        | ok m => simp only [hE]
        | error e => simp only [hE]
    | httpError status stx body => rfl
    | jsonError msg => rfl
    | netError msg => rfl
  · intro data s h1 hs
    refine extract_of_chain_string data s ?_ ?_ hs
    · intro hb
      rw [lfPath1_of_base_none data hb] at h1
      exact Option.noConfusion h1
    · rw [lfChain, h1]
      rfl
  · intro data s h1 h2 hs
    refine extract_of_chain_string data s ?_ ?_ hs
    · intro hb
      rw [lfPath2_of_base_none data hb] at h2
      exact Option.noConfusion h2
    · rw [lfChain, h1, h2]
      rfl
  · intro data s h1 h2 h3 hs
    refine extract_of_chain_string data s ?_ ?_ hs
    · intro hb
      rw [lfPath3_of_base_none data hb] at h3
      exact Option.noConfusion h3
    · rw [lfChain, h1, h2, h3]
      rfl
  · intro data s h1 h2 h3 h4 hs
    refine extract_of_chain_string data s ?_ ?_ hs
    · intro hb
      rw [lfPath4_of_base_none data hb] at h4
      exact Option.noConfusion h4
    · rw [lfChain, h1, h2, h3, h4]
      rfl

/-- Witness for C4 at a concrete request, a concrete reply whose first
path carries the text, and one whose second path wins after the first
misses. -/
theorem send_posts_once_and_extracts_first_match_witness :
    (customSendMessage ⟨"u", "org", "tok"⟩ "sess" (some " hi ") (.netError "boom")).requests =
      [⟨"chat", "chat", "hi", "sess"⟩] ∧
    extractLangflowMessage
      (.jobj [("outputs", .jarr [.jobj [("outputs", .jarr [.jobj [("outputs",
        .jobj [("message", .jobj [("message", .jstr "  hello ")])])]])]])]) =
      .ok (some "hello") ∧
    extractLangflowMessage
      (.jobj [("outputs", .jarr [.jobj [("outputs", .jarr [.jobj [("artifacts",
        .jobj [("message", .jstr "arty")])]])]])]) =
      .ok (some "arty") :=
  ⟨send_posts_once_and_extracts_first_match.1 ⟨"u", "org", "tok"⟩ "sess" " hi "
      (.netError "boom") (by decide) (by decide) (by decide) (by decide),
    send_posts_once_and_extracts_first_match.2.1
      (.jobj [("outputs", .jarr [.jobj [("outputs", .jarr [.jobj [("outputs",
        .jobj [("message", .jobj [("message", .jstr "  hello ")])])]])]])])
      "  hello " rfl (by decide),
    send_posts_once_and_extracts_first_match.2.2.1
      (.jobj [("outputs", .jarr [.jobj [("outputs", .jarr [.jobj [("artifacts",
        .jobj [("message", .jstr "arty")])]])]])])
      "arty" rfl rfl (by decide)⟩

/-! ## C5 -/

/-- C5: the session identifier changes only on the RESET event — the RESET
handler replaces it with the freshly generated identifier, a send leaves
it untouched, any run of non-reset events leaves it untouched, and every
request a chat turn issues carries the current session identifier. -/
theorem session_id_changes_only_on_reset :
    (∀ (sid : String) (t : Option String) (net : FetchResult),
      stepSession sid (.send t net) = sid) ∧
    (∀ (sid fresh : String), stepSession sid (.reset fresh) = fresh) ∧
    (∀ (sid : String) (evs : List ChatEvent),
      (∀ e ∈ evs, e.isReset = false) → evs.foldl stepSession sid = sid) ∧
    (∀ (cfg : LfConfig) (sid : String) (t : Option String) (net : FetchResult)
        (p : LfPayload),
      p ∈ (customSendMessage cfg sid t net).requests → p.session_id = sid) := by
  refine ⟨fun _ _ _ => rfl, fun _ _ => rfl, ?_, ?_⟩
  · intro sid evs h
    induction evs with
    | nil => rfl
    | cons e rest ih =>
        cases e with
        | reset fresh =>
            exact absurd (h _ (List.mem_cons_self _ _)) (by simp [ChatEvent.isReset])
        | send t net =>
            exact ih (fun x hx => h x (List.mem_cons_of_mem _ hx))
  · intro cfg sid t net p hp
    cases t with
    | none => exact absurd hp (by simp [customSendMessage])
    | some t0 =>
        rw [customSendMessage_some] at hp
        by_cases ht : jsTrim t0 = ""
        · rw [if_pos ht] at hp
          exact absurd hp (by simp)
        · rw [if_neg ht] at hp
          by_cases hm : cfg.url = "" ∨ cfg.orgId = "" ∨ cfg.token = ""
          · rw [if_pos hm] at hp
            exact absurd hp (by simp)
          · rw [if_neg hm] at hp
            cases net with
            | okJson data =>
                cases hE : extractLangflowMessage data with
                | ok m =>
                    simp only [hE] at hp
                    rw [List.mem_singleton] at hp
                    rw [hp]
                | error e =>
                    simp only [hE] at hp
                    rw [List.mem_singleton] at hp
                    rw [hp]
            | httpError status stx body =>
                rw [List.mem_singleton.{0}] at hp
                rw [hp]
            | jsonError msg =>
                rw [List.mem_singleton.{0}] at hp
                rw [hp]
            | netError msg =>
                rw [List.mem_singleton.{0}] at hp
                rw [hp]

/-- Witness for C5: a concrete non-reset run and a concrete turn's
payload. -/
theorem session_id_changes_only_on_reset_witness :
    [ChatEvent.send (some "hi") (.netError "boom")].foldl stepSession "s0" = "s0" ∧
    (LfPayload.mk "chat" "chat" "hi" "s0").session_id = "s0" :=
  ⟨session_id_changes_only_on_reset.2.2.1 "s0"
      [ChatEvent.send (some "hi") (.netError "boom")]
      (by intro e he; rw [List.mem_singleton] at he; rw [he]; rfl),
    session_id_changes_only_on_reset.2.2.2 ⟨"u", "org", "tok"⟩ "s0" (some "hi")
      (.netError "boom") ⟨"chat", "chat", "hi", "s0"⟩
      (by rw [show (customSendMessage ⟨"u", "org", "tok"⟩ "s0" (some "hi")
        (.netError "boom")).requests = [⟨"chat", "chat", "hi", "s0"⟩] from rfl]
          exact List.mem_singleton.mpr rfl)⟩

/-! ## C2 -/

/-- C2: every entry `handleFilesSelected` creates starts with status
`'uploading'` (both as built by `mkEntry` and as found among the freshly
appended entries), and when the ingestion for an entry returns success the
deferred update sets that entry's status to `'complete'` and records a
`completedAt` time. -/
theorem successful_upload_transitions_uploading_to_complete :
    (∀ (now : String) (nf : NewFile), (mkEntry now nf).status = "uploading") ∧
    (∀ (prev : List FileEntry) (now : String) (nfs : List NewFile)
        (e : FileEntry),
      e ∈ addFiles prev now nfs → e ∉ prev → e.status = "uploading") ∧
    (∀ (prev : List FileEntry) (entryId : String) (data : JVal) (now : String)
        (e : FileEntry),
      e ∈ finishEntry prev entryId (.successRes data) now → e.id = entryId →
      e.status = "complete" ∧ e.completedAt = some now) := by
  refine ⟨fun _ _ => rfl, ?_, ?_⟩
  · intro prev now nfs e he hnot
    rcases List.mem_append.mp he with h | h
    · exact absurd h hnot
    · rcases List.mem_map.mp h with ⟨nf, _, rfl⟩
      rfl
  · intro prev entryId data now e he hid
    rcases List.mem_map.mp he with ⟨item, hitem, rfl⟩
    by_cases h : item.id ≠ entryId
    · rw [if_pos h] at hid
      exact absurd hid h
    · rw [if_neg h]
      rw [if_neg h] at hid
      exact ⟨rfl, rfl⟩

/-- Witness for C2 on a one-element list whose ingestion succeeded. -/
theorem successful_upload_transitions_uploading_to_complete_witness :
    (mkEntry "t0" ⟨"a", "f.pdf", some 3⟩).status = "uploading" ∧
    ({ id := "a", name := "f.pdf", size := some 3, createdAt := "t0",
        status := "complete", completedAt := some "t1",
        astraResponse := some (.jobj []), errorMessage := none } :
      FileEntry).status = "complete" ∧
    ({ id := "a", name := "f.pdf", size := some 3, createdAt := "t0",
        status := "complete", completedAt := some "t1",
        astraResponse := some (.jobj []), errorMessage := none } :
      FileEntry).completedAt = some "t1" :=
  ⟨successful_upload_transitions_uploading_to_complete.1 "t0" ⟨"a", "f.pdf", some 3⟩,
    (successful_upload_transitions_uploading_to_complete.2.2
      [mkEntry "t0" ⟨"a", "f.pdf", some 3⟩] "a" (.jobj []) "t1" _
      (List.mem_singleton.mpr rfl) rfl).1,
    (successful_upload_transitions_uploading_to_complete.2.2
      [mkEntry "t0" ⟨"a", "f.pdf", some 3⟩] "a" (.jobj []) "t1" _
      (List.mem_singleton.mpr rfl) rfl).2⟩

/-! ## C9 -/

/-- C9: with any required Astra configuration value missing,
`ingestFileToAstra` returns the skipped (non-success) result without
issuing any HTTP request, and the deferred update nevertheless marks the
entry `'complete'` with a null (`none`) stored response — indistinguishable
from a successful upload in the list state. -/
theorem skipped_ingestion_presented_as_complete :
    (∀ (acfg : AstraConfig) (f : FileData) (now : String) (net : FetchResult),
      (acfg.endpoint = "" ∨ acfg.keyspace = "" ∨ acfg.collection = "" ∨ acfg.token = "") →
      (ingestFileToAstra acfg f now net).requests = [] ∧
      (ingestFileToAstra acfg f now net).result = .skippedRes astraConfigMissingMsg) ∧
    (∀ (prev : List FileEntry) (entryId msg now : String) (e : FileEntry),
      e ∈ finishEntry prev entryId (.skippedRes msg) now → e.id = entryId →
      e.status = "complete" ∧ e.astraResponse = none ∧ e.completedAt = some now) := by
  constructor
  · intro acfg f now net hmiss
    unfold ingestFileToAstra
    rw [if_pos hmiss]
    exact ⟨rfl, rfl⟩
  · intro prev entryId msg now e he hid
    rcases List.mem_map.mp he with ⟨item, hitem, rfl⟩
    by_cases h : item.id ≠ entryId
    · rw [if_pos h] at hid
      exact absurd hid h
    · rw [if_neg h]
      rw [if_neg h] at hid
      exact ⟨rfl, rfl, rfl⟩

/-- Witness for C9 at a concrete missing configuration and a one-element
list. -/
theorem skipped_ingestion_presented_as_complete_witness :
    (ingestFileToAstra ⟨"", "ks", "coll", "tok"⟩
        ⟨"f.pdf", "application/pdf", some 3, some "x,QQ"⟩ "2024-01-01"
        (.okJson .jnull)).requests = [] ∧
    ({ id := "a", name := "f.pdf", size := some 3, createdAt := "t0",
        status := "complete", completedAt := some "t1",
        astraResponse := none, errorMessage := none } : FileEntry).status
      = "complete" :=
  ⟨(skipped_ingestion_presented_as_complete.1 ⟨"", "ks", "coll", "tok"⟩
      ⟨"f.pdf", "application/pdf", some 3, some "x,QQ"⟩ "2024-01-01"
      (.okJson .jnull) (Or.inl rfl)).1,
    (skipped_ingestion_presented_as_complete.2
      [mkEntry "t0" ⟨"a", "f.pdf", some 3⟩] "a" astraConfigMissingMsg "t1" _
      (List.mem_singleton.mpr rfl) rfl).1⟩

/-! ## C8 -/

/-- C8: with full configuration and a readable file, `ingestFileToAstra`
issues exactly one POST to the collection URL whose body is an
`insertMany` of the single document carrying the base64-decoded payload of
the data URL together with the file's metadata (name, mime type with its
default, size, upload timestamp); and `testAstraConnection` only ever
issues `findOne` bodies — exactly one with full configuration — inserting
nothing. -/
theorem ingest_posts_single_insertMany_test_readonly :
    (∀ (acfg : AstraConfig) (f : FileData) (now : String) (net : FetchResult)
        (dataUrl : String),
      acfg.endpoint ≠ "" → acfg.keyspace ≠ "" → acfg.collection ≠ "" →
      acfg.token ≠ "" → f.readerResult = some dataUrl →
      (ingestFileToAstra acfg f now net).requests =
        [⟨astraUrl acfg, acfg.token, .insertMany
          [⟨f.name,
            if f.mimeType = "" then "application/octet-stream" else f.mimeType,
            f.size, now, f.name, readFileAsBase64 dataUrl⟩]⟩]) ∧
    (∀ (acfg : AstraConfig) (net : FetchResult),
      acfg.endpoint ≠ "" → acfg.keyspace ≠ "" → acfg.collection ≠ "" →
      acfg.token ≠ "" →
      (testAstraConnection acfg net).requests =
        [⟨astraUrl acfg, acfg.token, .findOne⟩]) ∧
    (∀ (acfg : AstraConfig) (net : FetchResult) (r : AstraRequest),
      r ∈ (testAstraConnection acfg net).requests → r.body = .findOne) := by
  have hnotm : ∀ (acfg : AstraConfig), acfg.endpoint ≠ "" → acfg.keyspace ≠ "" →
      acfg.collection ≠ "" → acfg.token ≠ "" →
      ¬(acfg.endpoint = "" ∨ acfg.keyspace = "" ∨ acfg.collection = "" ∨ acfg.token = "") := by
    intro acfg h1 h2 h3 h4 h
    rcases h with h | h | h | h
    · exact h1 h
    · exact h2 h
    · exact h3 h
    · exact h4 h
  refine ⟨?_, ?_, ?_⟩
  · intro acfg f now net dataUrl h1 h2 h3 h4 hread
    unfold ingestFileToAstra
    rw [if_neg (hnotm acfg h1 h2 h3 h4), hread]
    cases net with
    | okJson data => rfl
    | httpError status stx body => rfl
    | jsonError msg => rfl
    | netError msg => rfl
  · intro acfg net h1 h2 h3 h4
    unfold testAstraConnection
    rw [if_neg (hnotm acfg h1 h2 h3 h4)]
    cases net with
    | okJson data => rfl
    | httpError status stx body => rfl
    | jsonError msg => rfl
    | netError msg => rfl
  · intro acfg net r hr
    unfold testAstraConnection at hr
    by_cases hm : acfg.endpoint = "" ∨ acfg.keyspace = "" ∨ acfg.collection = "" ∨ acfg.token = ""
    · rw [if_pos hm] at hr
      exact absurd hr (by simp)
    · rw [if_neg hm] at hr
      cases net with
      | okJson data =>
          rw [List.mem_singleton] at hr
          rw [hr]
      | httpError status stx body =>
          rw [List.mem_singleton] at hr
          rw [hr]
      | jsonError msg =>
          rw [List.mem_singleton] at hr
          rw [hr]
      | netError msg =>
          rw [List.mem_singleton] at hr
          rw [hr]

/-- Witness for C8 at a concrete file and configuration. -/
theorem ingest_posts_single_insertMany_test_readonly_witness :
    (ingestFileToAstra ⟨"ep", "ks", "coll", "tok"⟩
        ⟨"f.pdf", "", some 3, some "data:application/pdf;base64,QUJD"⟩
        "2024-01-01" (.okJson .jnull)).requests =
      [⟨"ep/api/json/v1/ks/coll", "tok", .insertMany
        [⟨"f.pdf", "application/octet-stream", some 3, "2024-01-01", "f.pdf", "QUJD"⟩]⟩] ∧
    (testAstraConnection ⟨"ep", "ks", "coll", "tok"⟩ (.okJson .jnull)).requests =
      [⟨"ep/api/json/v1/ks/coll", "tok", .findOne⟩] ∧
    (AstraRequest.mk "ep/api/json/v1/ks/coll" "tok" .findOne).body = .findOne := by
  refine ⟨?_, ?_, ?_⟩
  · rw [ingest_posts_single_insertMany_test_readonly.1 ⟨"ep", "ks", "coll", "tok"⟩
      ⟨"f.pdf", "", some 3, some "data:application/pdf;base64,QUJD"⟩
      "2024-01-01" (.okJson .jnull) "data:application/pdf;base64,QUJD"
      (by decide) (by decide) (by decide) (by decide) rfl]
    decide
  · rw [ingest_posts_single_insertMany_test_readonly.2.1 ⟨"ep", "ks", "coll", "tok"⟩
      (.okJson .jnull) (by decide) (by decide) (by decide) (by decide)]
    decide
  · exact ingest_posts_single_insertMany_test_readonly.2.2
      ⟨"ep", "ks", "coll", "tok"⟩ (.okJson .jnull)
      ⟨"ep/api/json/v1/ks/coll", "tok", .findOne⟩
      (by rw [ingest_posts_single_insertMany_test_readonly.2.1 ⟨"ep", "ks", "coll", "tok"⟩
          (.okJson .jnull) (by decide) (by decide) (by decide) (by decide)]
          exact List.mem_singleton.mpr rfl)

/-! ## C6 -/

/-- C6: in every reachable state of the uploaded-files list, every entry's
status is `'uploading'`, `'complete'`, or `'error'`, and this is preserved
by all three updaters (adding files, finishing an ingestion, removing a
file). -/
theorem uploaded_files_status_enumerated :
    ∀ (s : List FileEntry), ReachableFiles s →
      ∀ e ∈ s, e.status = "uploading" ∨ e.status = "complete" ∨ e.status = "error" := by
  intro s h
  induction h with
  | init =>
      intro e he
      exact absurd he (List.not_mem_nil e)
  | step s op hs ih =>
      intro e he
      cases op with
      | add now nfs =>
          rcases List.mem_append.mp he with h1 | h2
          · exact ih e h1
          · rcases List.mem_map.mp h2 with ⟨nf, _, rfl⟩
            exact Or.inl rfl
      | finish entryId res now =>
          rcases List.mem_map.mp he with ⟨item, hitem, rfl⟩
          by_cases hid : item.id ≠ entryId
          · rw [if_pos hid]
            exact ih item hitem
          · rw [if_neg hid]
            cases res with
            | successRes data => exact Or.inr (Or.inl rfl)
            | skippedRes msg => exact Or.inr (Or.inl rfl)
            | failureRes msg => exact Or.inr (Or.inr rfl)
      | remove fileId =>
          exact ih e (List.mem_of_mem_filter he)

/-- Witness for C6: a concrete reachable state (add two files, fail one,
remove the other) and an entry in it. -/
theorem uploaded_files_status_enumerated_witness :
    ({ id := "a", name := "f.pdf", size := some 3, createdAt := "t0",
        status := "error", completedAt := none, astraResponse := none,
        errorMessage := some "boom" } : FileEntry).status = "uploading" ∨
    ({ id := "a", name := "f.pdf", size := some 3, createdAt := "t0",
        status := "error", completedAt := none, astraResponse := none,
        errorMessage := some "boom" } : FileEntry).status = "complete" ∨
    ({ id := "a", name := "f.pdf", size := some 3, createdAt := "t0",
        status := "error", completedAt := none, astraResponse := none,
        errorMessage := some "boom" } : FileEntry).status = "error" :=
  uploaded_files_status_enumerated
    (applyOp (applyOp (applyOp [] (.add "t0" [⟨"a", "f.pdf", some 3⟩, ⟨"b", "g.md", none⟩]))
      (.finish "a" (.failureRes "boom") "t1")) (.remove "b"))
    (ReachableFiles.step _ (.remove "b")
      (ReachableFiles.step _ (.finish "a" (.failureRes "boom") "t1")
        (ReachableFiles.step _ (.add "t0" [⟨"a", "f.pdf", some 3⟩, ⟨"b", "g.md", none⟩])
          ReachableFiles.init)))
    _ (List.mem_singleton.mpr rfl)

/-! ## C7 -/

/-- C7: with `makeId` supplying fresh identifiers (duplicate-free batches,
disjoint from the ids already present — what `crypto.randomUUID` provides
within a page session), every reachable state of the uploaded-files list
has pairwise-distinct entry ids. -/
theorem uploaded_files_ids_distinct :
    ∀ (s : List FileEntry), ReachableFreshFiles s →
      (s.map FileEntry.id).Nodup := by
  intro s h
  induction h with
  | init => exact List.nodup_nil
  | add s now nfs hs hnodup hdisj ih =>
      unfold addFiles
      rw [List.map_append, List.map_map]
      have hcomp : nfs.map (FileEntry.id ∘ mkEntry now) = nfs.map NewFile.id :=
        List.map_congr_left (fun nf _ => rfl)
      rw [hcomp]
      refine List.Nodup.append ih hnodup ?_
      intro a ha hb
      rcases List.mem_map.mp hb with ⟨nf, hnf, rfl⟩
      exact hdisj nf hnf ha
  | finish s entryId res now hs ih =>
      have hids : (finishEntry s entryId res now).map FileEntry.id = s.map FileEntry.id := by
        unfold finishEntry
        rw [List.map_map]
        refine List.map_congr_left ?_
        intro item _
        show FileEntry.id (if item.id ≠ entryId then item else _) = item.id
        by_cases hid : item.id ≠ entryId
        · rw [if_pos hid]
        · rw [if_neg hid]
          cases res with
          | successRes data => rfl
          | skippedRes msg => rfl
          | failureRes msg => rfl
      rw [hids]
      exact ih
  | remove s fileId hs ih =>
      exact List.Nodup.sublist ((List.filter_sublist s).map FileEntry.id) ih

/-- Witness for C7: a concrete fresh trace of two added files. -/
theorem uploaded_files_ids_distinct_witness :
    ((addFiles [] "t0" [⟨"a", "f.pdf", some 3⟩, ⟨"b", "g.md", none⟩]).map
      FileEntry.id).Nodup :=
  uploaded_files_ids_distinct _
    (ReachableFreshFiles.add [] "t0" [⟨"a", "f.pdf", some 3⟩, ⟨"b", "g.md", none⟩]
      ReachableFreshFiles.init (by decide) (by decide))
